import Mathlib

/-
  Verification development for the GTA-EXPERIENCE server-side game logic.

  The TypeScript managers (AdminManager, PropertyManager, VehicleManager,
  FactionManager) each keep an in-memory index next to a durable store and
  mutate both inside async methods.  We embed them shallowly: each manager
  becomes a state structure (in-memory maps plus the durable tables its
  queries touch), each public method a pure function from state to
  state x result.  Awaited database calls are the only suspension points of
  the single-threaded event loop, so a method body is split at its awaits
  where interleaving matters (property purchase); elsewhere the sequential
  composition is used.  Database queries that can throw are modelled by a
  Bool parameter saying whether the query succeeded; a throwing query has no
  effect and control jumps to the enclosing catch, exactly as in the source.
  User-facing message strings are abbreviated to ASCII slugs standing for
  the Spanish/English texts of the source; result identity (which failure
  fired) is preserved.  JS floating-point money arithmetic is modelled by
  exact integer arithmetic (Math.floor (p * 0.8) becomes 4*p/5 on Nat).
-/

namespace GTA

/-- Result shape returned by every manager method: success flag and message. -/
structure Result where
  success : Bool
  message : String
deriving DecidableEq, Repr

/-- Pointwise update of a finite map modelled as a function: apply f at key k
if a value is present (an SQL UPDATE touching 0 or 1 rows). -/
def modifyMap {α : Type} (m : Nat → Option α) (k : Nat) (f : α → α) : Nat → Option α :=
  fun x => if x = k then (m x).map f else m x

/-- Insert or replace the value at key k (Map.set / SQL upsert). -/
def setMap {α : Type} (m : Nat → Option α) (k : Nat) (v : α) : Nat → Option α :=
  fun x => if x = k then some v else m x

/-- Remove the value at key k (Map.delete). -/
def eraseMap {α : Type} (m : Nat → Option α) (k : Nat) : Nat → Option α :=
  fun x => if x = k then none else m x

theorem modifyMap_self {α : Type} (m : Nat → Option α) (k : Nat) (f : α → α) :
    modifyMap m k f k = (m k).map f := by
  simp [modifyMap]

theorem modifyMap_ne {α : Type} (m : Nat → Option α) (k x : Nat) (f : α → α) (h : x ≠ k) :
    modifyMap m k f x = m x := by
  simp [modifyMap, h]

theorem setMap_self {α : Type} (m : Nat → Option α) (k : Nat) (v : α) :
    setMap m k v k = some v := by
  simp [setMap]

theorem setMap_ne {α : Type} (m : Nat → Option α) (k x : Nat) (v : α) (h : x ≠ k) :
    setMap m k v x = m x := by
  simp [setMap, h]

theorem eraseMap_self {α : Type} (m : Nat → Option α) (k : Nat) :
    eraseMap m k k = none := by
  simp [eraseMap]

theorem eraseMap_ne {α : Type} (m : Nat → Option α) (k x : Nat) (h : x ≠ k) :
    eraseMap m k x = m x := by
  simp [eraseMap, h]

/-! ## AdminManager (src/server/systems/admin/AdminManager.ts) -/

namespace AdminM

/-- In-memory admin grant entry (the AdminLevel record cached in
adminLevels : Map of player_id to entry). -/
structure AdminLevel where
  level : Int
  permissions : List String
deriving DecidableEq, Repr

/-- Durable admin_levels row as written by the setAdminLevel upsert. -/
structure AdminLevelRow where
  level : Int
  permissions : List String
  set_by : Nat
deriving DecidableEq, Repr

/-- Durable player_bans row as written by banPlayer / updated by unbanPlayer.
expires_at is a millisecond timestamp, none meaning a permanent ban. -/
structure BanRow where
  player_id : Nat
  banned_by : Nat
  reason : String
  expires_at : Option Nat
  active : Bool
  unbanned_by : Option Nat
  unban_reason : Option String
deriving DecidableEq, Repr

/-- Durable player_mutes row; expires_at always set (duration is mandatory). -/
structure MuteRow where
  player_id : Nat
  muted_by : Nat
  reason : String
  expires_at : Nat
  active : Bool
  unmuted_by : Option Nat
  unmute_reason : Option String
deriving DecidableEq, Repr

/-- Durable player_warnings row (append-only). -/
structure WarningRow where
  player_id : Nat
  warned_by : Nat
  reason : String
deriving DecidableEq, Repr

/-- Durable admin_logs row, and the in-memory AdminAction mirror. -/
structure LogRow where
  admin_id : Nat
  action : String
  target_id : Nat
  details : String
deriving DecidableEq, Repr

/-- The AdminManager state: the in-memory caches (adminLevels Map, the
adminActions ring) and the durable tables its queries touch, plus the event
emissions (topic, target player) sent through the EventManager. -/
structure AdminState where
  adminLevels : Nat → Option AdminLevel
  adminActions : List LogRow
  dbAdminLevels : Nat → Option AdminLevelRow
  dbBans : List BanRow
  dbMutes : List MuteRow
  dbWarnings : List WarningRow
  dbAdminLogs : List LogRow
  events : List (String × Nat)

/-- getAdminLevel: cached level, 0 when no cache entry. -/
def getAdminLevel (s : AdminState) (playerId : Nat) : Int :=
  match s.adminLevels playerId with
  | some admin => admin.level
  | none => 0

/-- hasPermission: exact string containment in the cached permission set,
with the wildcard star granting everything; false when no cache entry. -/
def hasPermission (s : AdminState) (playerId : Nat) (permission : String) : Bool :=
  match s.adminLevels playerId with
  | none => false
  | some admin => admin.permissions.contains permission || admin.permissions.contains "*"

/-- logAdminAction: insert an admin_logs row, mirror it into the in-memory
adminActions list and trim that list to its last 100 entries.  A throwing
insert (dbOk = false) is caught inside this method, leaving the state
untouched and the caller unaware. -/
def logAdminAction (s : AdminState) (adminId : Nat) (action : String) (targetId : Nat)
    (details : String) (dbOk : Bool) : AdminState :=
  if dbOk then
    let acts := s.adminActions ++ [⟨adminId, action, targetId, details⟩]
    { s with
      dbAdminLogs := s.dbAdminLogs ++ [⟨adminId, action, targetId, details⟩],
      adminActions := if 100 < acts.length then acts.drop (acts.length - 100) else acts }
  else s

/-- setAdminLevel: validate 0..10, upsert the durable row, then replace
(level positive) or delete (level 0) the cache entry, then append an audit
entry.  upsertOk says whether the durable upsert succeeded; a throwing
upsert jumps to the catch, returning a server-error result with nothing
mutated.  logOk says whether the audit insert succeeded (non-fatal). -/
def setAdminLevel (s : AdminState) (playerId : Nat) (level : Int) (permissions : List String)
    (setBy : Nat) (upsertOk logOk : Bool) : AdminState × Result :=
  if level < 0 ∨ 10 < level then
    (s, ⟨false, "invalid-admin-level"⟩)
  else if upsertOk = false then
    (s, ⟨false, "server-error"⟩)
  else
    let s1 := { s with dbAdminLevels := setMap s.dbAdminLevels playerId ⟨level, permissions, setBy⟩ }
    let s2 :=
      if 0 < level then
        { s1 with adminLevels := setMap s1.adminLevels playerId ⟨level, permissions⟩ }
      else
        { s1 with adminLevels := eraseMap s1.adminLevels playerId }
    (logAdminAction s2 setBy "SET_ADMIN_LEVEL" playerId "set-admin-level" logOk,
     ⟨true, "admin-level-set"⟩)

/-- kickPlayer: requires the kick capability; appends an audit entry and
emits the kick event.  No durable write of its own besides the audit row. -/
def kickPlayer (s : AdminState) (targetId adminId : Nat) (reason : String)
    (logOk : Bool) : AdminState × Result :=
  if hasPermission s adminId "kick" = false then
    (s, ⟨false, "no-permission-kick"⟩)
  else
    let s1 := logAdminAction s adminId "KICK" targetId reason logOk
    ({ s1 with events := s1.events ++ [("player:kick", targetId)] }, ⟨true, "kicked"⟩)

/-- banPlayer: requires the ban capability; inserts a player_bans row
(duration 0 meaning permanent, expires_at null), audits, emits the kick.
dbOk says whether the insert succeeded (a throw reaches the catch). -/
def banPlayer (s : AdminState) (targetId adminId : Nat) (reason : String)
    (duration now : Nat) (dbOk logOk : Bool) : AdminState × Result :=
  if hasPermission s adminId "ban" = false then
    (s, ⟨false, "no-permission-ban"⟩)
  else
    let expiresAt : Option Nat := if 0 < duration then some (now + duration * 60 * 60 * 1000) else none
    if dbOk = false then (s, ⟨false, "server-error"⟩)
    else
      let s1 := { s with dbBans := s.dbBans ++ [⟨targetId, adminId, reason, expiresAt, true, none, none⟩] }
      let s2 := logAdminAction s1 adminId "BAN" targetId reason logOk
      ({ s2 with events := s2.events ++ [("player:kick", targetId)] }, ⟨true, "banned"⟩)

/-- unbanPlayer: requires the unban capability; deactivates the active ban
rows of the target, failing with not-banned when the UPDATE affected 0 rows. -/
def unbanPlayer (s : AdminState) (targetId adminId : Nat) (reason : String)
    (dbOk logOk : Bool) : AdminState × Result :=
  if hasPermission s adminId "unban" = false then
    (s, ⟨false, "no-permission-unban"⟩)
  else if dbOk = false then (s, ⟨false, "server-error"⟩)
  else if (s.dbBans.filter (fun b => b.player_id == targetId && b.active)).length = 0 then
    (s, ⟨false, "not-banned"⟩)
  else
    let s1 := { s with dbBans := s.dbBans.map (fun b =>
        if b.player_id == targetId && b.active then
          { b with active := false, unbanned_by := some adminId, unban_reason := some reason }
        else b) }
    (logAdminAction s1 adminId "UNBAN" targetId reason logOk, ⟨true, "unbanned"⟩)

/-- mutePlayer: requires the mute capability; inserts a player_mutes row with
a mandatory duration in minutes. -/
def mutePlayer (s : AdminState) (targetId adminId : Nat) (reason : String)
    (duration now : Nat) (dbOk logOk : Bool) : AdminState × Result :=
  if hasPermission s adminId "mute" = false then
    (s, ⟨false, "no-permission-mute"⟩)
  else if dbOk = false then (s, ⟨false, "server-error"⟩)
  else
    let s1 := { s with dbMutes := s.dbMutes ++
        [⟨targetId, adminId, reason, now + duration * 60 * 1000, true, none, none⟩] }
    (logAdminAction s1 adminId "MUTE" targetId reason logOk, ⟨true, "muted"⟩)

/-- unmutePlayer: requires the unmute capability; deactivates the active mute
rows, failing with not-muted when the UPDATE affected 0 rows. -/
def unmutePlayer (s : AdminState) (targetId adminId : Nat) (reason : String)
    (dbOk logOk : Bool) : AdminState × Result :=
  if hasPermission s adminId "unmute" = false then
    (s, ⟨false, "no-permission-unmute"⟩)
  else if dbOk = false then (s, ⟨false, "server-error"⟩)
  else if (s.dbMutes.filter (fun b => b.player_id == targetId && b.active)).length = 0 then
    (s, ⟨false, "not-muted"⟩)
  else
    let s1 := { s with dbMutes := s.dbMutes.map (fun b =>
        if b.player_id == targetId && b.active then
          { b with active := false, unmuted_by := some adminId, unmute_reason := some reason }
        else b) }
    (logAdminAction s1 adminId "UNMUTE" targetId reason logOk, ⟨true, "unmuted"⟩)

/-- warnPlayer: requires the warn capability; inserts a player_warnings row,
audits, and emits the warn event. -/
def warnPlayer (s : AdminState) (targetId adminId : Nat) (reason : String)
    (dbOk logOk : Bool) : AdminState × Result :=
  if hasPermission s adminId "warn" = false then
    (s, ⟨false, "no-permission-warn"⟩)
  else if dbOk = false then (s, ⟨false, "server-error"⟩)
  else
    let s1 := { s with dbWarnings := s.dbWarnings ++ [⟨targetId, adminId, reason⟩] }
    let s2 := logAdminAction s1 adminId "WARN" targetId reason logOk
    ({ s2 with events := s2.events ++ [("player:warn", targetId)] }, ⟨true, "warned"⟩)

/-- A well-formed admin cache: every cached grant has a positive level.
setAdminLevel only stores entries with positive level and removes the entry
on level 0, so this invariant holds in every state it produces. -/
def WFAdminCache (s : AdminState) : Prop :=
  ∀ k a, s.adminLevels k = some a → 0 < a.level

theorem logAdminAction_adminLevels (s : AdminState) (adminId : Nat) (action : String)
    (targetId : Nat) (details : String) (dbOk : Bool) :
    (logAdminAction s adminId action targetId details dbOk).adminLevels = s.adminLevels := by
  unfold logAdminAction
  split <;> rfl

theorem setAdminLevel_zero_adminLevels (s : AdminState) (playerId : Nat)
    (permissions : List String) (setBy : Nat) (logOk : Bool) :
    (setAdminLevel s playerId 0 permissions setBy true logOk).1.adminLevels
      = eraseMap s.adminLevels playerId := by
  unfold setAdminLevel
  norm_num
  rw [logAdminAction_adminLevels]

/-- The empty AdminManager state: nothing cached, empty tables. -/
def adminState0 : AdminState :=
  ⟨fun _ => none, [], fun _ => none, [], [], [], [], []⟩

/-- C3: if the durable upsert inside setAdminLevel throws, the in-memory
admin-level cache is left exactly as it was before the call and a failure
result is returned; read contrapositively, the cache is never updated
without the store write having succeeded first. -/
theorem setAdminLevel_store_failure_atomic (s : AdminState) (playerId : Nat) (level : Int)
    (permissions : List String) (setBy : Nat) (upsertOk logOk : Bool)
    (h : upsertOk = false) :
    (setAdminLevel s playerId level permissions setBy upsertOk logOk).1.adminLevels
        = s.adminLevels
    ∧ (setAdminLevel s playerId level permissions setBy upsertOk logOk).2.success = false := by
  subst h
  unfold setAdminLevel
  split
  · exact ⟨rfl, rfl⟩
  · simp

/-- Witness for C3 at a concrete state and arguments. -/
theorem setAdminLevel_store_failure_atomic_witness :
    (setAdminLevel adminState0 1 5 ["kick"] 2 false true).1.adminLevels
        = adminState0.adminLevels
    ∧ (setAdminLevel adminState0 1 5 ["kick"] 2 false true).2.success = false :=
  setAdminLevel_store_failure_atomic adminState0 1 5 ["kick"] 2 false true rfl

/-- C6: with every cached grant at a positive level (an invariant that
setAdminLevel preserves, proved as the second conjunct), getAdminLevel
returns 0 exactly when no grant is cached for the actor; and immediately
after a successful setAdminLevel to level 0 the level reads 0 and every
permission check for that actor fails. -/
theorem getLevel_zero_iff_no_grant (s : AdminState) (playerId : Nat) (level : Int)
    (permissions : List String) (setBy : Nat) (upsertOk logOk : Bool) (c : String)
    (hwf : WFAdminCache s) :
    (getAdminLevel s playerId = 0 ↔ s.adminLevels playerId = none)
    ∧ WFAdminCache (setAdminLevel s playerId level permissions setBy upsertOk logOk).1
    ∧ getAdminLevel (setAdminLevel s playerId 0 permissions setBy true logOk).1 playerId = 0
    ∧ hasPermission (setAdminLevel s playerId 0 permissions setBy true logOk).1 playerId c
        = false := by
  refine ⟨?_, ?_, ?_, ?_⟩
  · unfold getAdminLevel
    cases h : s.adminLevels playerId with
    | none => simp
    | some a =>
        have hpos := hwf playerId a h
        show a.level = 0 ↔ some a = none
        constructor
        · intro h0
          omega
        · intro h0
          cases h0
  · intro k a hk
    unfold setAdminLevel at hk
    split at hk
    · exact hwf k a hk
    · split at hk
      · exact hwf k a hk
      · rw [logAdminAction_adminLevels] at hk
        split at hk
        · rename_i hlev
          have hk2 : setMap s.adminLevels playerId ⟨level, permissions⟩ k = some a := hk
          by_cases hkp : k = playerId
          · rw [hkp, setMap_self] at hk2
            cases hk2
            exact hlev
          · rw [setMap_ne _ _ _ _ hkp] at hk2
            exact hwf k a hk2
        · have hk2 : eraseMap s.adminLevels playerId k = some a := hk
          by_cases hkp : k = playerId
          · rw [hkp, eraseMap_self] at hk2
            cases hk2
          · rw [eraseMap_ne _ _ _ hkp] at hk2
            exact hwf k a hk2
  · unfold getAdminLevel
    rw [setAdminLevel_zero_adminLevels, eraseMap_self]
  · unfold hasPermission
    rw [setAdminLevel_zero_adminLevels, eraseMap_self]

/-- Witness for C6 at a concrete well-formed state. -/
theorem getLevel_zero_iff_no_grant_witness :
    (getAdminLevel adminState0 1 = 0 ↔ adminState0.adminLevels 1 = none)
    ∧ WFAdminCache (setAdminLevel adminState0 1 5 ["kick"] 2 true true).1
    ∧ getAdminLevel (setAdminLevel adminState0 1 0 ["kick"] 2 true true).1 1 = 0
    ∧ hasPermission (setAdminLevel adminState0 1 0 ["kick"] 2 true true).1 1 "ban" = false :=
  getLevel_zero_iff_no_grant adminState0 1 5 ["kick"] 2 true true "ban"
    (by intro k a h; simp [adminState0] at h)

/-- C7: each moderation action (kick, ban, unban, mute, unmute, warn)
invoked by an actor lacking the matching capability returns the
permission-denied failure and leaves the state entirely untouched: no
durable row is written, no audit entry is appended, no event is emitted. -/
theorem moderation_denied_no_write (s : AdminState) (targetId adminId : Nat) (reason : String)
    (duration now : Nat) (dbOk logOk : Bool) :
    (hasPermission s adminId "kick" = false →
       kickPlayer s targetId adminId reason logOk = (s, ⟨false, "no-permission-kick"⟩))
  ∧ (hasPermission s adminId "ban" = false →
       banPlayer s targetId adminId reason duration now dbOk logOk
         = (s, ⟨false, "no-permission-ban"⟩))
  ∧ (hasPermission s adminId "unban" = false →
       unbanPlayer s targetId adminId reason dbOk logOk = (s, ⟨false, "no-permission-unban"⟩))
  ∧ (hasPermission s adminId "mute" = false →
       mutePlayer s targetId adminId reason duration now dbOk logOk
         = (s, ⟨false, "no-permission-mute"⟩))
  ∧ (hasPermission s adminId "unmute" = false →
       unmutePlayer s targetId adminId reason dbOk logOk
         = (s, ⟨false, "no-permission-unmute"⟩))
  ∧ (hasPermission s adminId "warn" = false →
       warnPlayer s targetId adminId reason dbOk logOk
         = (s, ⟨false, "no-permission-warn"⟩)) := by
  refine ⟨fun h => ?_, fun h => ?_, fun h => ?_, fun h => ?_, fun h => ?_, fun h => ?_⟩ <;>
    simp [kickPlayer, banPlayer, unbanPlayer, mutePlayer, unmutePlayer, warnPlayer, h]

/-- Witness for C7: the empty state grants nobody anything, so every
moderation action is denied without effect. -/
theorem moderation_denied_no_write_witness :
    kickPlayer adminState0 1 2 "r" true = (adminState0, ⟨false, "no-permission-kick"⟩)
  ∧ banPlayer adminState0 1 2 "r" 0 0 true true = (adminState0, ⟨false, "no-permission-ban"⟩)
  ∧ unbanPlayer adminState0 1 2 "r" true true = (adminState0, ⟨false, "no-permission-unban"⟩)
  ∧ mutePlayer adminState0 1 2 "r" 30 0 true true = (adminState0, ⟨false, "no-permission-mute"⟩)
  ∧ unmutePlayer adminState0 1 2 "r" true true = (adminState0, ⟨false, "no-permission-unmute"⟩)
  ∧ warnPlayer adminState0 1 2 "r" true true = (adminState0, ⟨false, "no-permission-warn"⟩) :=
  let t := moderation_denied_no_write adminState0 1 2 "r" 30 0 true true
  let t0 := moderation_denied_no_write adminState0 1 2 "r" 0 0 true true
  ⟨t.1 rfl, t0.2.1 rfl, t.2.2.1 rfl, t.2.2.2.1 rfl, t.2.2.2.2.1 rfl, t.2.2.2.2.2 rfl⟩

end AdminM

/-! ## PropertyManager (src/unnamed/part_004) -/

namespace PropertyM

/-- A property record, as kept both in the in-memory cache and in the
properties table (the fields the purchase/sell/rent lifecycle touches). -/
structure Property where
  owner_id : Option Nat
  name : String
  price : Nat
  for_sale : Bool
  for_rent : Bool
  rent_price : Option Nat
  rented_by : Option Nat
deriving DecidableEq, Repr

/-- A property_keys row / in-memory PropertyKey entry. -/
structure PropertyKey where
  property_id : Nat
  player_id : Nat
  key_type : String
deriving DecidableEq, Repr

/-- PropertyManager state: in-memory property cache and key lists, plus the
durable properties, property_keys and characters(money) tables. -/
structure PState where
  properties : Nat → Option Property
  propertyKeys : Nat → List PropertyKey
  dbProperties : Nat → Option Property
  dbPropertyKeys : List PropertyKey
  dbMoney : Nat → Option Int

/-- giveKey: reject when the property is unknown to the cache or when the
(property, player) pair already has a durable key row; otherwise insert the
key row and mirror it into the in-memory key list. -/
def giveKey (s : PState) (propertyId playerId : Nat) (keyType : String) : PState × Result :=
  match s.properties propertyId with
  | none => (s, ⟨false, "property-not-found"⟩)
  | some _ =>
    if 0 < (s.dbPropertyKeys.filter
        (fun k => k.property_id == propertyId && k.player_id == playerId)).length then
      (s, ⟨false, "player-already-has-key"⟩)
    else
      let row : PropertyKey := ⟨propertyId, playerId, keyType⟩
      ({ s with
          dbPropertyKeys := s.dbPropertyKeys ++ [row],
          propertyKeys := fun x =>
            if x = propertyId then s.propertyKeys propertyId ++ [row] else s.propertyKeys x },
       ⟨true, "key-given"⟩)

/-- The field update performed by the purchase path on a property record,
both by the UPDATE statement and by the in-memory write-back: set the owner
and clear the for_sale flag together. -/
def setSold (buyerId : Nat) (q : Property) : Property :=
  { q with owner_id := some buyerId, for_sale := false }

/-- The field update performed by the sell path on a property record, both
by the UPDATE statement and by the in-memory write-back: clear the owner,
re-enable for_sale and clear the rental, together. -/
def clearSale (q : Property) : Property :=
  { q with owner_id := none, for_sale := true, rented_by := none }

/-- The synchronous prefix of purchaseProperty, up to its first await: read
the cached property and run the not-found / not-for-sale / already-owned
checks.  Returns the captured property snapshot on success. -/
def purchaseCheck (s : PState) (propertyId : Nat) : Except Result Property :=
  match s.properties propertyId with
  | none => Except.error ⟨false, "property-not-found"⟩
  | some property =>
    if property.for_sale = false then Except.error ⟨false, "property-not-for-sale"⟩
    else
      match property.owner_id with
      | some _ => Except.error ⟨false, "property-already-owned"⟩
      | none => Except.ok property

/-- The remainder of purchaseProperty, resumed after the first await with
the snapshot p captured by the check: read the buyer money row, check
funds, then UPDATE properties (owner set, for_sale cleared in one
statement), UPDATE characters (debit), call giveKey for the owner key (its
result is ignored by the source), and finally write the owner and for_sale
fields back through the in-memory cache in one synchronous block. -/
def purchaseRest (s : PState) (p : Property) (propertyId buyerId : Nat) : PState × Result :=
  match s.dbMoney buyerId with
  | none => (s, ⟨false, "not-enough-money"⟩)
  | some money =>
    if money < (p.price : Int) then (s, ⟨false, "not-enough-money"⟩)
    else
      let s1 := { s with dbProperties := modifyMap s.dbProperties propertyId (setSold buyerId) }
      let s2 := { s1 with dbMoney := modifyMap s1.dbMoney buyerId (fun m => m - p.price) }
      let s3 := (giveKey s2 propertyId buyerId "owner").1
      let s4 := { s3 with properties := modifyMap s3.properties propertyId (setSold buyerId) }
      (s4, ⟨true, "property-purchased"⟩)

/-- purchaseProperty run without interleaving: the check followed at once by
the rest. -/
def purchaseProperty (s : PState) (propertyId buyerId : Nat) : PState × Result :=
  match purchaseCheck s propertyId with
  | Except.error r => (s, r)
  | Except.ok p => purchaseRest s p propertyId buyerId

/-- Two purchase calls against the same asset id under the schedule the
event loop permits: call 1 runs its synchronous check and suspends at its
first await, call 2 runs its synchronous check against the still-unchanged
cache and suspends, then call 1 runs to completion, then call 2.  Returns
the final state and both results. -/
def purchaseRace (s : PState) (propertyId b1 b2 : Nat) : PState × Result × Result :=
  match purchaseCheck s propertyId, purchaseCheck s propertyId with
  | Except.error r1, Except.error r2 => (s, r1, r2)
  | Except.error r1, Except.ok p2 =>
      let (s2, r2) := purchaseRest s p2 propertyId b2
      (s2, r1, r2)
  | Except.ok p1, Except.error r2 =>
      let (s1, r1) := purchaseRest s p1 propertyId b1
      (s1, r1, r2)
  | Except.ok p1, Except.ok p2 =>
      let (s1, r1) := purchaseRest s p1 propertyId b1
      let (s2, r2) := purchaseRest s1 p2 propertyId b2
      (s2, r1, r2)

/-- sellProperty: owner-only; credit the seller with the floor of 80% of
the list price (Math.floor (price * 0.8), modelled exactly as 4*p/5), clear
owner / re-enable for_sale / clear rental in one UPDATE, delete all key
rows for the asset, then mirror the same into memory synchronously. -/
def sellProperty (s : PState) (propertyId sellerId : Nat) : PState × Result :=
  match s.properties propertyId with
  | none => (s, ⟨false, "property-not-found"⟩)
  | some property =>
    if (property.owner_id == some sellerId) = false then
      (s, ⟨false, "not-the-owner"⟩)
    else
      let sellPrice : Nat := 4 * property.price / 5
      let s1 := { s with dbMoney := modifyMap s.dbMoney sellerId (fun m => m + sellPrice) }
      let s2 := { s1 with dbProperties := modifyMap s1.dbProperties propertyId clearSale }
      let s3 := { s2 with dbPropertyKeys :=
                    s2.dbPropertyKeys.filter (fun k => (k.property_id == propertyId) = false) }
      let s4 := { s3 with
                  properties := modifyMap s3.properties propertyId clearSale,
                  propertyKeys := fun x => if x = propertyId then [] else s3.propertyKeys x }
      (s4, ⟨true, "property-sold"⟩)

/-- A property that is unowned and listed for sale at price 1000. -/
def prop0 : Property :=
  ⟨none, "casa", 1000, true, false, none, none⟩

/-- Concrete scenario for the purchase race: property 42 unowned and for
sale at price 1000 (consistently in cache and store), buyers 1 and 2 each
hold 5000, no keys anywhere. -/
def pstate0 : PState :=
  ⟨fun k => if k = 42 then some prop0 else none,
   fun _ => [],
   fun k => if k = 42 then some prop0 else none,
   [],
   fun k => if k = 1 ∨ k = 2 then some 5000 else none⟩

theorem purchaseCheck_ok (s : PState) (propertyId : Nat) (p : Property)
    (hp : s.properties propertyId = some p)
    (hsale : p.for_sale = true) (hown : p.owner_id = none) :
    purchaseCheck s propertyId = Except.ok p := by
  simp [purchaseCheck, hp, hsale, hown]

/-- The state left behind by a funded purchaseRest run whose asset is still
cached and whose buyer holds no key yet. -/
def purchasedState (s : PState) (p : Property) (propertyId buyerId : Nat) : PState :=
  { properties := modifyMap s.properties propertyId (setSold buyerId),
    propertyKeys := fun x =>
      if x = propertyId then s.propertyKeys propertyId ++ [⟨propertyId, buyerId, "owner"⟩]
      else s.propertyKeys x,
    dbProperties := modifyMap s.dbProperties propertyId (setSold buyerId),
    dbPropertyKeys := s.dbPropertyKeys ++ [⟨propertyId, buyerId, "owner"⟩],
    dbMoney := modifyMap s.dbMoney buyerId (fun m => m - p.price) }

theorem purchaseRest_success (s : PState) (p q : Property) (propertyId buyerId : Nat) (m : Int)
    (hp : s.properties propertyId = some q)
    (hm : s.dbMoney buyerId = some m) (hf : ¬ m < (p.price : Int))
    (hk : s.dbPropertyKeys.filter
        (fun k => k.property_id == propertyId && k.player_id == buyerId) = []) :
    purchaseRest s p propertyId buyerId
      = (purchasedState s p propertyId buyerId, ⟨true, "property-purchased"⟩) := by
  simp [purchaseRest, giveKey, hm, hp, hk, hf, purchasedState]

/-- C1 counterexample: at the concrete scenario of pstate0 (asset 42
unowned, for sale at 1000, buyers 1 and 2 each funded with 5000), the
schedule in which both purchase calls pass their synchronous not-owned
check before either store write lands makes BOTH calls succeed, debits each
buyer the full price (2000 debited in total, not 1000 once), and the final
owner is buyer 2 — refuting that exactly one call succeeds with the other
receiving Conflict and the price debited exactly once in total. -/
theorem purchase_race_claim_counterexample :
    (purchaseRace pstate0 42 1 2).2.1.success = true
    ∧ (purchaseRace pstate0 42 1 2).2.2.success = true
    ∧ (purchaseRace pstate0 42 1 2).1.dbMoney 1 = some 4000
    ∧ (purchaseRace pstate0 42 1 2).1.dbMoney 2 = some 4000
    ∧ (purchaseRace pstate0 42 1 2).1.properties 42
        = some ⟨some 2, "casa", 1000, false, false, none, none⟩ := by
  exact ⟨rfl, rfl, rfl, rfl, rfl⟩

/-- C1 amended: with the asset unowned and for sale and two distinct,
sufficiently funded buyers, the interleaving in which both synchronous
checks run before either store write lands makes BOTH purchase calls
succeed: each buyer is debited the full price once (so the price is
debited twice in total), both buyers receive an owner key row, and the
final owner is the buyer whose write-back ran last. -/
theorem purchase_race_lost_update (s : PState) (propertyId b1 b2 : Nat) (p : Property)
    (m1 m2 : Int)
    (hp : s.properties propertyId = some p)
    (hsale : p.for_sale = true)
    (hown : p.owner_id = none)
    (hne : b1 ≠ b2)
    (hm1 : s.dbMoney b1 = some m1) (hm2 : s.dbMoney b2 = some m2)
    (hf1 : ¬ m1 < (p.price : Int)) (hf2 : ¬ m2 < (p.price : Int))
    (hk1 : s.dbPropertyKeys.filter
        (fun k => k.property_id == propertyId && k.player_id == b1) = [])
    (hk2 : s.dbPropertyKeys.filter
        (fun k => k.property_id == propertyId && k.player_id == b2) = []) :
    (purchaseRace s propertyId b1 b2).2.1.success = true
    ∧ (purchaseRace s propertyId b1 b2).2.2.success = true
    ∧ (purchaseRace s propertyId b1 b2).1.properties propertyId = some (setSold b2 p)
    ∧ (purchaseRace s propertyId b1 b2).1.dbMoney b1 = some (m1 - p.price)
    ∧ (purchaseRace s propertyId b1 b2).1.dbMoney b2 = some (m2 - p.price)
    ∧ (purchaseRace s propertyId b1 b2).1.dbPropertyKeys
        = s.dbPropertyKeys ++ [⟨propertyId, b1, "owner"⟩] ++ [⟨propertyId, b2, "owner"⟩] := by
  have hchk := purchaseCheck_ok s propertyId p hp hsale hown
  have h1 := purchaseRest_success s p p propertyId b1 m1 hp hm1 hf1 hk1
  have hp1 : (purchasedState s p propertyId b1).properties propertyId = some (setSold b1 p) := by
    simp [purchasedState, modifyMap, hp]
  have hm2a : (purchasedState s p propertyId b1).dbMoney b2 = some m2 := by
    simp only [purchasedState]
    rw [modifyMap_ne _ _ _ _ (fun h => hne h.symm)]
    exact hm2
  have hk2a : (purchasedState s p propertyId b1).dbPropertyKeys.filter
      (fun k => k.property_id == propertyId && k.player_id == b2) = [] := by
    simp only [purchasedState, List.filter_append, hk2]
    simp [hne]
  have h2 := purchaseRest_success (purchasedState s p propertyId b1) p (setSold b1 p)
      propertyId b2 m2 hp1 hm2a hf2 hk2a
  unfold purchaseRace
  rw [hchk]
  dsimp only
  rw [h1]
  dsimp only
  rw [h2]
  refine ⟨rfl, rfl, ?_, ?_, ?_, ?_⟩
  · simp [purchasedState, modifyMap, hp, setSold]
  · simp only [purchasedState]
    rw [modifyMap_ne _ _ _ _ hne]
    rw [modifyMap_self, hm1]
    rfl
  · simp only [purchasedState]
    rw [modifyMap_self]
    rw [modifyMap_ne _ _ _ _ (fun h => hne h.symm), hm2]
    rfl
  · simp [purchasedState]

/-- Witness for C1 amended at the concrete pstate0 scenario. -/
theorem purchase_race_lost_update_witness :
    (purchaseRace pstate0 42 1 2).2.1.success = true
    ∧ (purchaseRace pstate0 42 1 2).2.2.success = true
    ∧ (purchaseRace pstate0 42 1 2).1.properties 42 = some (setSold 2 prop0)
    ∧ (purchaseRace pstate0 42 1 2).1.dbMoney 1 = some (5000 - (prop0.price : Int))
    ∧ (purchaseRace pstate0 42 1 2).1.dbMoney 2 = some (5000 - (prop0.price : Int))
    ∧ (purchaseRace pstate0 42 1 2).1.dbPropertyKeys
        = pstate0.dbPropertyKeys ++ [⟨42, 1, "owner"⟩] ++ [⟨42, 2, "owner"⟩] :=
  purchase_race_lost_update pstate0 42 1 2 prop0 5000 5000 rfl rfl rfl
    (by decide) rfl rfl (by decide) (by decide) rfl rfl

/-- The single-asset invariant of C2: a non-null owner forces the for_sale
flag clear. -/
def OwnerForSaleInv (m : Nat → Option Property) : Prop :=
  ∀ k p, m k = some p → p.owner_id ≠ none → p.for_sale = false

/-- C2 invariant over the whole state: both the in-memory cache and the
durable table satisfy the owner/for_sale exclusion. -/
def PInv (s : PState) : Prop :=
  OwnerForSaleInv s.properties ∧ OwnerForSaleInv s.dbProperties

theorem ownerForSaleInv_setSold (m : Nat → Option Property) (key b : Nat)
    (h : OwnerForSaleInv m) :
    OwnerForSaleInv (modifyMap m key (setSold b)) := by
  intro k p hk hown
  by_cases hkk : k = key
  · subst hkk
    rw [modifyMap_self] at hk
    cases hq : m k with
    | none => rw [hq] at hk; cases hk
    | some q =>
        rw [hq] at hk
        cases hk
        rfl
  · rw [modifyMap_ne _ _ _ _ hkk] at hk
    exact h k p hk hown

theorem ownerForSaleInv_clearSale (m : Nat → Option Property) (key : Nat)
    (h : OwnerForSaleInv m) :
    OwnerForSaleInv (modifyMap m key clearSale) := by
  intro k p hk hown
  by_cases hkk : k = key
  · subst hkk
    rw [modifyMap_self] at hk
    cases hq : m k with
    | none => rw [hq] at hk; cases hk
    | some q =>
        rw [hq] at hk
        cases hk
        exact absurd rfl hown
  · rw [modifyMap_ne _ _ _ _ hkk] at hk
    exact h k p hk hown

theorem giveKey_pinv (s : PState) (propertyId playerId : Nat) (keyType : String)
    (h : PInv s) : PInv (giveKey s propertyId playerId keyType).1 := by
  unfold giveKey
  split
  · exact h
  · split
    · exact h
    · exact h

theorem purchaseRest_pinv (s : PState) (p : Property) (propertyId buyerId : Nat)
    (h : PInv s) : PInv (purchaseRest s p propertyId buyerId).1 := by
  obtain ⟨h1, h2⟩ := h
  unfold purchaseRest
  split
  · exact ⟨h1, h2⟩
  · split
    · exact ⟨h1, h2⟩
    · have hgk := giveKey_pinv
        { s with
          dbProperties := modifyMap s.dbProperties propertyId (setSold buyerId),
          dbMoney := modifyMap s.dbMoney buyerId (fun m => m - (p.price : Int)) }
        propertyId buyerId "owner"
        ⟨h1, ownerForSaleInv_setSold s.dbProperties propertyId buyerId h2⟩
      exact ⟨ownerForSaleInv_setSold _ propertyId buyerId hgk.1, hgk.2⟩

theorem sellProperty_pinv (s : PState) (propertyId sellerId : Nat)
    (h : PInv s) : PInv (sellProperty s propertyId sellerId).1 := by
  obtain ⟨h1, h2⟩ := h
  unfold sellProperty
  split
  · exact ⟨h1, h2⟩
  · split
    · exact ⟨h1, h2⟩
    · exact ⟨ownerForSaleInv_clearSale s.properties propertyId h1,
        ownerForSaleInv_clearSale s.dbProperties propertyId h2⟩

theorem purchaseProperty_pinv (s : PState) (propertyId buyerId : Nat)
    (h : PInv s) : PInv (purchaseProperty s propertyId buyerId).1 := by
  unfold purchaseProperty
  split
  · exact h
  · exact purchaseRest_pinv s _ propertyId buyerId h

theorem purchaseRace_pinv (s : PState) (propertyId b1 b2 : Nat)
    (h : PInv s) : PInv (purchaseRace s propertyId b1 b2).1 := by
  unfold purchaseRace
  split
  · exact h
  · exact purchaseRest_pinv s _ propertyId b2 h
  · exact purchaseRest_pinv s _ propertyId b1 h
  · exact purchaseRest_pinv _ _ propertyId b2 (purchaseRest_pinv s _ propertyId b1 h)

theorem prop0_ownerForSaleInv :
    OwnerForSaleInv (fun k => if k = 42 then some prop0 else none) := by
  intro k p hk hown
  have hk2 : (if k = 42 then some prop0 else none) = some p := hk
  by_cases h : k = 42
  · subst h
    rw [if_pos rfl] at hk2
    cases hk2
    exact absurd rfl hown
  · rw [if_neg h] at hk2
    cases hk2

/-- C2: the owner/for_sale exclusion (a non-null owner forces for_sale
clear) is preserved, on both the in-memory cache and the durable table, by
purchaseProperty, by sellProperty, and by the interleaved double purchase;
moreover the only two writes either operation ever performs on a property
record — setSold (owner set and for_sale cleared in one atomic step) and
clearSale (owner cleared and for_sale set in one atomic step) — each
preserve the exclusion, so it holds at every observable point of any
schedule of these operations. -/
theorem ownership_engine_invariant (s : PState) (m : Nat → Option Property)
    (propertyId buyerId sellerId b1 b2 key b : Nat)
    (hinv : PInv s) :
    PInv (purchaseProperty s propertyId buyerId).1
    ∧ PInv (sellProperty s propertyId sellerId).1
    ∧ PInv (purchaseRace s propertyId b1 b2).1
    ∧ (OwnerForSaleInv m → OwnerForSaleInv (modifyMap m key (setSold b)))
    ∧ (OwnerForSaleInv m → OwnerForSaleInv (modifyMap m key clearSale)) :=
  ⟨purchaseProperty_pinv s propertyId buyerId hinv,
   sellProperty_pinv s propertyId sellerId hinv,
   purchaseRace_pinv s propertyId b1 b2 hinv,
   fun hm => ownerForSaleInv_setSold m key b hm,
   fun hm => ownerForSaleInv_clearSale m key hm⟩

/-- Witness for C2 at the concrete pstate0 scenario. -/
theorem ownership_engine_invariant_witness :
    PInv (purchaseProperty pstate0 42 1).1
    ∧ PInv (sellProperty pstate0 42 1).1
    ∧ PInv (purchaseRace pstate0 42 1 2).1
    ∧ OwnerForSaleInv (modifyMap pstate0.properties 42 (setSold 1))
    ∧ OwnerForSaleInv (modifyMap pstate0.properties 42 clearSale) :=
  let t := ownership_engine_invariant pstate0 pstate0.properties 42 1 1 1 2 42 1
    ⟨prop0_ownerForSaleInv, prop0_ownerForSaleInv⟩
  ⟨t.1, t.2.1, t.2.2.1, t.2.2.2.1 prop0_ownerForSaleInv, t.2.2.2.2 prop0_ownerForSaleInv⟩

/-- purchaseProperty immediately followed by sellProperty of the same asset
by the same actor: final state, purchase result, sell result. -/
def propertyRoundTrip (s : PState) (propertyId actorId : Nat) : PState × Result × Result :=
  let a := purchaseProperty s propertyId actorId
  let b := sellProperty a.1 propertyId actorId
  (b.1, a.2, b.2)

theorem sellProperty_success (s : PState) (propertyId sellerId : Nat) (q : Property)
    (hq : s.properties propertyId = some q) (howner : q.owner_id = some sellerId) :
    sellProperty s propertyId sellerId =
      ({ properties := modifyMap s.properties propertyId clearSale,
         propertyKeys := fun x => if x = propertyId then [] else s.propertyKeys x,
         dbProperties := modifyMap s.dbProperties propertyId clearSale,
         dbPropertyKeys := s.dbPropertyKeys.filter
           (fun k => (k.property_id == propertyId) = false),
         dbMoney := modifyMap s.dbMoney sellerId
           (fun mm => mm + ((4 * q.price / 5 : Nat) : Int)) },
       ⟨true, "property-sold"⟩) := by
  simp [sellProperty, hq, howner]

theorem filter_own_keys_nil (l : List PropertyKey) (propertyId : Nat) :
    (l.filter (fun k => (k.property_id == propertyId) = false)).filter
      (fun k => k.property_id == propertyId) = [] := by
  rw [List.filter_filter]
  rw [List.filter_eq_nil_iff]
  intro a _
  cases h : (a.property_id == propertyId) <;> simp [h]

/-- Helper for C5, property half: a funded purchase of an unowned for-sale
property followed at once by a sell of the same property by the same actor
succeeds twice, returns the actor money to initial - price + 4*price/5,
and leaves the asset unowned, re-listed for sale, with zero keys. -/
theorem propertyRoundTrip_spec (s : PState) (propertyId actorId : Nat) (p dp : Property)
    (m : Int)
    (hp : s.properties propertyId = some p)
    (hsale : p.for_sale = true) (hown : p.owner_id = none)
    (hm : s.dbMoney actorId = some m) (hf : ¬ m < (p.price : Int))
    (hk : s.dbPropertyKeys.filter
        (fun k => k.property_id == propertyId && k.player_id == actorId) = [])
    (hdp : s.dbProperties propertyId = some dp) :
    (propertyRoundTrip s propertyId actorId).2.1.success = true
    ∧ (propertyRoundTrip s propertyId actorId).2.2.success = true
    ∧ (propertyRoundTrip s propertyId actorId).1.dbMoney actorId
        = some (m - (p.price : Int) + ((4 * p.price / 5 : Nat) : Int))
    ∧ (propertyRoundTrip s propertyId actorId).1.properties propertyId = some (clearSale p)
    ∧ (propertyRoundTrip s propertyId actorId).1.dbProperties propertyId = some (clearSale dp)
    ∧ (propertyRoundTrip s propertyId actorId).1.propertyKeys propertyId = []
    ∧ (propertyRoundTrip s propertyId actorId).1.dbPropertyKeys.filter
        (fun k => k.property_id == propertyId) = [] := by
  have hchk := purchaseCheck_ok s propertyId p hp hsale hown
  have hpur := purchaseRest_success s p p propertyId actorId m hp hm hf hk
  have hpp : purchaseProperty s propertyId actorId
      = (purchasedState s p propertyId actorId, ⟨true, "property-purchased"⟩) := by
    unfold purchaseProperty
    rw [hchk]
    exact hpur
  have hps_prop : (purchasedState s p propertyId actorId).properties propertyId
      = some (setSold actorId p) := by
    show modifyMap s.properties propertyId (setSold actorId) propertyId = _
    rw [modifyMap_self, hp]
    rfl
  have hsell := sellProperty_success (purchasedState s p propertyId actorId) propertyId
    actorId (setSold actorId p) hps_prop rfl
  have hrt : propertyRoundTrip s propertyId actorId
      = ((sellProperty (purchasedState s p propertyId actorId) propertyId actorId).1,
         ⟨true, "property-purchased"⟩,
         (sellProperty (purchasedState s p propertyId actorId) propertyId actorId).2) := by
    unfold propertyRoundTrip
    rw [hpp]
  rw [hrt, hsell]
  refine ⟨rfl, rfl, ?_, ?_, ?_, ?_, ?_⟩
  · show modifyMap (purchasedState s p propertyId actorId).dbMoney actorId _ actorId = _
    rw [modifyMap_self]
    show (modifyMap s.dbMoney actorId _ actorId).map _ = _
    rw [modifyMap_self, hm]
    rfl
  · show modifyMap (purchasedState s p propertyId actorId).properties propertyId
        clearSale propertyId = _
    rw [modifyMap_self, hps_prop]
    rfl
  · show modifyMap (purchasedState s p propertyId actorId).dbProperties propertyId
        clearSale propertyId = _
    rw [modifyMap_self]
    show (modifyMap s.dbProperties propertyId (setSold actorId) propertyId).map _ = _
    rw [modifyMap_self, hdp]
    rfl
  · simp
  · exact filter_own_keys_nil _ propertyId

end PropertyM

/-! ## VehicleManager (src/server/systems/vehicles/VehicleManager.ts) -/

namespace VehicleM

/-- An in-memory vehicle record (the fields the sale / key / fuel lifecycle
touches).  Fuel is a rational since refuel amounts need not be integral. -/
structure Vehicle where
  owner_id : Nat
  model : String
  plate : String
  fuel : ℚ
  engine_health : Int
  body_health : Int
  locked : Bool
  impounded : Bool
deriving DecidableEq, Repr

/-- A durable vehicles row: the in-memory fields plus the soft-delete flag
(deleted_at IS NOT NULL). -/
structure DbVehicle where
  owner_id : Nat
  model : String
  plate : String
  fuel : ℚ
  engine_health : Int
  body_health : Int
  locked : Bool
  impounded : Bool
  deleted : Bool
deriving DecidableEq, Repr

/-- A vehicle_keys row / in-memory VehicleKey entry. -/
structure VehicleKey where
  vehicle_id : Nat
  player_id : Nat
  key_type : String
deriving DecidableEq, Repr

/-- A dealership catalog entry. -/
structure CatalogEntry where
  model : String
  name : String
  price : Nat
deriving DecidableEq, Repr

/-- Premium Deluxe Motorsport catalog. -/
def pdm : List CatalogEntry :=
  [⟨"adder", "Truffade Adder", 1000000⟩,
   ⟨"zentorno", "Pegassi Zentorno", 725000⟩,
   ⟨"entityxf", "Overflod Entity XF", 795000⟩,
   ⟨"infernus", "Pegassi Infernus", 440000⟩,
   ⟨"vacca", "Pegassi Vacca", 240000⟩,
   ⟨"bullet", "Vapid Bullet", 155000⟩,
   ⟨"cheetah", "Grotti Cheetah", 650000⟩,
   ⟨"voltic", "Coil Voltic", 150000⟩,
   ⟨"banshee", "Bravado Banshee", 105000⟩,
   ⟨"carbonizzare", "Grotti Carbonizzare", 195000⟩,
   ⟨"coquette", "Invetero Coquette", 138000⟩,
   ⟨"ninef", "Obey 9F", 130000⟩,
   ⟨"rapidgt", "Dewbauchee Rapid GT", 132000⟩,
   ⟨"stinger", "Grotti Stinger", 850000⟩,
   ⟨"buffalo", "Bravado Buffalo", 35000⟩,
   ⟨"feltzer2", "Benefactor Feltzer", 130000⟩]

/-- Budget dealership catalog. -/
def simeon : List CatalogEntry :=
  [⟨"blista", "Dinka Blista", 8000⟩,
   ⟨"brioso", "Grotti Brioso R/A", 18000⟩,
   ⟨"dilettante", "Karin Dilettante", 25000⟩,
   ⟨"issi2", "Weeny Issi", 18000⟩,
   ⟨"panto", "Benefactor Panto", 85000⟩,
   ⟨"prairie", "Bollokan Prairie", 25000⟩,
   ⟨"rhapsody", "Declasse Rhapsody", 140000⟩,
   ⟨"asea", "Declasse Asea", 12000⟩,
   ⟨"asterope", "Karin Asterope", 26000⟩,
   ⟨"fugitive", "Cheval Fugitive", 24000⟩,
   ⟨"ingot", "Vulcar Ingot", 9000⟩,
   ⟨"intruder", "Karin Intruder", 16000⟩,
   ⟨"premier", "Declasse Premier", 10000⟩,
   ⟨"primo", "Albany Primo", 9000⟩,
   ⟨"regina", "Dundreary Regina", 8000⟩,
   ⟨"stratum", "Zirconium Stratum", 10000⟩]

/-- Motorcycle dealership catalog. -/
def bikes : List CatalogEntry :=
  [⟨"akuma", "Dinka Akuma", 9000⟩,
   ⟨"bagger", "Western Bagger", 16000⟩,
   ⟨"bati", "Pegassi Bati 801", 15000⟩,
   ⟨"bati2", "Pegassi Bati 801RR", 15000⟩,
   ⟨"carbonrs", "Nagasaki Carbon RS", 40000⟩,
   ⟨"daemon", "Western Daemon", 5000⟩,
   ⟨"double", "Dinka Double-T", 12000⟩,
   ⟨"faggio2", "Pegassi Faggio", 4000⟩,
   ⟨"hexer", "LCC Hexer", 15000⟩,
   ⟨"innovation", "LCC Innovation", 90000⟩,
   ⟨"nemesis", "Principe Nemesis", 12000⟩,
   ⟨"pcj", "Shitzu PCJ 600", 9000⟩,
   ⟨"ruffian", "Pegassi Ruffian", 10000⟩,
   ⟨"sanchez", "Maibatsu Sanchez", 7000⟩,
   ⟨"sovereign", "Western Sovereign", 90000⟩,
   ⟨"thrust", "Dinka Thrust", 75000⟩]

/-- The dealerships map, keyed by dealership id. -/
def dealerships (name : String) : Option (List CatalogEntry) :=
  if name = "pdm" then some pdm
  else if name = "simeon" then some simeon
  else if name = "bikes" then some bikes
  else none

/-- All catalog entries flattened in insertion order, as built by
sellVehicle to look up the catalog value of a model. -/
def allDealershipVehicles : List CatalogEntry :=
  pdm ++ simeon ++ bikes

/-- VehicleManager state: in-memory vehicle cache and key lists, durable
vehicles, vehicle_keys and characters(money) tables, and the
auto-increment counter that yields insertId for new vehicle rows. -/
structure VState where
  vehicles : Nat → Option Vehicle
  vehicleKeys : Nat → List VehicleKey
  dbVehicles : Nat → Option DbVehicle
  dbVehicleKeys : List VehicleKey
  dbMoney : Nat → Option Int
  nextVehicleId : Nat

/-- giveKey: reject when the vehicle is unknown to the in-memory cache or
when the (vehicle, player) pair already has a durable key row; otherwise
insert the key row and mirror it into the in-memory key list.  The
impound flag is never consulted. -/
def giveKey (s : VState) (vehicleId playerId : Nat) (keyType : String) : VState × Result :=
  match s.vehicles vehicleId with
  | none => (s, ⟨false, "vehicle-not-found"⟩)
  | some _ =>
    if 0 < (s.dbVehicleKeys.filter
        (fun k => k.vehicle_id == vehicleId && k.player_id == playerId)).length then
      (s, ⟨false, "player-already-has-key"⟩)
    else
      let row : VehicleKey := ⟨vehicleId, playerId, keyType⟩
      ({ s with
          dbVehicleKeys := s.dbVehicleKeys ++ [row],
          vehicleKeys := fun x =>
            if x = vehicleId then s.vehicleKeys vehicleId ++ [row] else s.vehicleKeys x },
       ⟨true, "key-given"⟩)

/-- removeKey: DELETE the non-owner key rows of the (vehicle, player) pair,
failing when 0 rows were affected; then filter the in-memory list the same
way.  Neither the vehicle existence nor the impound flag is consulted. -/
def removeKey (s : VState) (vehicleId playerId : Nat) : VState × Result :=
  let deleted := s.dbVehicleKeys.filter (fun k =>
      k.vehicle_id == vehicleId && k.player_id == playerId && (k.key_type == "owner") = false)
  if deleted.length = 0 then
    (s, ⟨false, "key-not-found-or-owner-key"⟩)
  else
    ({ s with
        dbVehicleKeys := s.dbVehicleKeys.filter (fun k => (k.vehicle_id == vehicleId
            && k.player_id == playerId && (k.key_type == "owner") = false) = false),
        vehicleKeys := fun x =>
          if x = vehicleId then
            (s.vehicleKeys vehicleId).filter (fun k =>
              (k.player_id == playerId && (k.key_type == "owner") = false) = false)
          else s.vehicleKeys x },
     ⟨true, "key-removed"⟩)

/-- purchaseVehicle: look the model up in the dealership catalog, check the
buyer money row, INSERT the vehicle row (fuel 100, health 1000/1000,
locked, not impounded), debit the buyer, call giveKey for the owner key —
whose result the source ignores, and which in fact always fails with
vehicle-not-found because the vehicle is added to the in-memory cache only
AFTER the giveKey call — and finally add the vehicle to the cache.  The
randomly generated plate is passed in as a parameter. -/
def purchaseVehicle (s : VState) (playerId : Nat) (dealership model plate : String) :
    VState × Result × Option Nat :=
  match dealerships dealership with
  | none => (s, ⟨false, "dealership-not-found"⟩, none)
  | some dealershipVehicles =>
    match dealershipVehicles.find? (fun v => v.model == model) with
    | none => (s, ⟨false, "vehicle-not-in-dealership"⟩, none)
    | some vehicleInfo =>
      match s.dbMoney playerId with
      | none => (s, ⟨false, "not-enough-money"⟩, none)
      | some money =>
        if money < (vehicleInfo.price : Int) then (s, ⟨false, "not-enough-money"⟩, none)
        else
          let vehicleId := s.nextVehicleId
          let s1 := { s with
              dbVehicles := setMap s.dbVehicles vehicleId
                ⟨playerId, model, plate, 100, 1000, 1000, true, false, false⟩,
              nextVehicleId := s.nextVehicleId + 1 }
          let s2 := { s1 with dbMoney := modifyMap s1.dbMoney playerId (fun m => m - (vehicleInfo.price : Int)) }
          let s3 := (giveKey s2 vehicleId playerId "owner").1
          let s4 := { s3 with
              vehicles := setMap s3.vehicles vehicleId ⟨playerId, model, plate, 100, 1000, 1000, true, false⟩ }
          (s4, ⟨true, "vehicle-purchased"⟩, some vehicleId)

/-- sellVehicle: owner-only and rejected while impounded; credit the seller
with the floor of 50% of the catalog value of the model (5000 when the
model is in no catalog), DELETE all key rows, soft-delete the vehicle row
(deleted_at set, nothing else touched), and drop the vehicle and its keys
from memory. -/
def sellVehicle (s : VState) (vehicleId sellerId : Nat) : VState × Result :=
  match s.vehicles vehicleId with
  | none => (s, ⟨false, "vehicle-not-found"⟩)
  | some vehicle =>
    if (vehicle.owner_id == sellerId) = false then
      (s, ⟨false, "not-the-owner"⟩)
    else if vehicle.impounded then
      (s, ⟨false, "cannot-sell-impounded-vehicle"⟩)
    else
      let sellPrice : Nat :=
        match allDealershipVehicles.find? (fun v => v.model == vehicle.model) with
        | some vehicleInfo => vehicleInfo.price / 2
        | none => 5000
      let s1 := { s with dbMoney := modifyMap s.dbMoney sellerId (fun m => m + Int.ofNat sellPrice) }
      let s2 := { s1 with dbVehicleKeys :=
                    s1.dbVehicleKeys.filter (fun k => (k.vehicle_id == vehicleId) = false) }
      let s3 := { s2 with dbVehicles := modifyMap s2.dbVehicles vehicleId (fun v => { v with deleted := true }) }
      let s4 := { s3 with
                  vehicles := eraseMap s3.vehicles vehicleId,
                  vehicleKeys := fun x => if x = vehicleId then [] else s3.vehicleKeys x }
      (s4, ⟨true, "vehicle-sold"⟩)

/-- refuelVehicle: cap the refuel amount at the room left under 100, fail
when no fuel fits, otherwise set the new fuel level in memory and in the
store.  The computed cost (floor of 2.5 per liter) is only RETURNED to the
caller; no money row is ever touched. -/
def refuelVehicle (s : VState) (vehicleId : Nat) (amount : ℚ) :
    VState × Result × Option Int :=
  match s.vehicles vehicleId with
  | none => (s, ⟨false, "vehicle-not-found"⟩, none)
  | some vehicle =>
    let fuelPrice : ℚ := 5 / 2
    let maxFuel : ℚ := 100
    let currentFuel := vehicle.fuel
    let actualAmount := min amount (maxFuel - currentFuel)
    let cost : Int := ⌊actualAmount * fuelPrice⌋
    if actualAmount ≤ 0 then (s, ⟨false, "tank-already-full"⟩, none)
    else
      let s1 := { s with vehicles := modifyMap s.vehicles vehicleId (fun v => { v with fuel := currentFuel + actualAmount }) }
      let s2 := { s1 with dbVehicles := modifyMap s1.dbVehicles vehicleId (fun v => { v with fuel := currentFuel + actualAmount }) }
      (s2, ⟨true, "refueled"⟩, some cost)

/-- An impounded vehicle owned by player 7. -/
def veh0 : Vehicle :=
  ⟨7, "blista", "AAAA1111", 50, 1000, 1000, true, true⟩

/-- Concrete scenario: vehicle 1 is impounded, player 7 owns it and holds
the owner key, player 9 holds a spare key, players 7, 9 and 11 have money. -/
def vstate0 : VState :=
  ⟨fun k => if k = 1 then some veh0 else none,
   fun k => if k = 1 then [⟨1, 7, "owner"⟩, ⟨1, 9, "spare"⟩] else [],
   fun k => if k = 1 then some ⟨7, "blista", "AAAA1111", 50, 1000, 1000, true, true, false⟩
            else none,
   [⟨1, 7, "owner"⟩, ⟨1, 9, "spare"⟩],
   fun k => if k = 7 ∨ k = 9 ∨ k = 11 then some 10000 else none,
   2⟩

/-- C4 counterexample: vehicle 1 is impounded, yet giveKey hands player 11 a
fresh key and removeKey strips player 9 of the spare key — both succeed and
change the durable key set, refuting that giveKey and removeKey fail on an
impounded vehicle leaving the key set unchanged. -/
theorem impound_key_ops_counterexample :
    (giveKey vstate0 1 11 "spare").2.success = true
    ∧ (giveKey vstate0 1 11 "spare").1.dbVehicleKeys ≠ vstate0.dbVehicleKeys
    ∧ (removeKey vstate0 1 9).2.success = true
    ∧ (removeKey vstate0 1 9).1.dbVehicleKeys ≠ vstate0.dbVehicleKeys := by
  refine ⟨rfl, by decide, rfl, by decide⟩

/-- C4 amended: while a vehicle is impounded, sellVehicle is rejected with
the impound failure and the state is returned unchanged (ownership and key
set untouched); but giveKey and removeKey never consult the impound flag:
on an impounded vehicle giveKey succeeds and appends a key row whenever the
holder has none, and removeKey succeeds whenever a non-owner key row exists
for the pair. -/
theorem impounded_vehicle_operations (s : VState) (vehicleId sellerId holderId : Nat)
    (kt : String) (v : Vehicle)
    (hv : s.vehicles vehicleId = some v)
    (himp : v.impounded = true) :
    (v.owner_id = sellerId →
       sellVehicle s vehicleId sellerId = (s, ⟨false, "cannot-sell-impounded-vehicle"⟩))
    ∧ (s.dbVehicleKeys.filter
          (fun k => k.vehicle_id == vehicleId && k.player_id == holderId) = [] →
       (giveKey s vehicleId holderId kt).2.success = true
       ∧ (giveKey s vehicleId holderId kt).1.dbVehicleKeys
           = s.dbVehicleKeys ++ [⟨vehicleId, holderId, kt⟩])
    ∧ (0 < (s.dbVehicleKeys.filter (fun k => k.vehicle_id == vehicleId
            && k.player_id == holderId && (k.key_type == "owner") = false)).length →
       (removeKey s vehicleId holderId).2.success = true) := by
  refine ⟨fun hown => ?_, fun hkey => ?_, fun hdel => ?_⟩
  · simp [sellVehicle, hv, hown, himp]
  · constructor <;> simp [giveKey, hv, hkey]
  · have hlen : ¬ (s.dbVehicleKeys.filter (fun k => k.vehicle_id == vehicleId
        && k.player_id == holderId && (k.key_type == "owner") = false)).length = 0 := by
      omega
    simp only [removeKey]
    rw [if_neg hlen]

/-- Witness for C4 amended at the concrete vstate0 scenario. -/
theorem impounded_vehicle_operations_witness :
    sellVehicle vstate0 1 7 = (vstate0, ⟨false, "cannot-sell-impounded-vehicle"⟩)
    ∧ (giveKey vstate0 1 11 "spare").2.success = true
    ∧ (giveKey vstate0 1 11 "spare").1.dbVehicleKeys
        = vstate0.dbVehicleKeys ++ [⟨1, 11, "spare"⟩]
    ∧ (removeKey vstate0 1 9).2.success = true :=
  let t11 := impounded_vehicle_operations vstate0 1 7 11 "spare" veh0 rfl rfl
  let t9 := impounded_vehicle_operations vstate0 1 7 9 "spare" veh0 rfl rfl
  ⟨t11.1 rfl, (t11.2.1 (by decide)).1, (t11.2.1 (by decide)).2, t9.2.2 (by decide)⟩

/-- C10: a refuel of an existing vehicle with positive amount and a tank
below 100 succeeds, adds exactly min(amount, 100 - fuel) fuel — never past
100 — rewrites only the fuel field of only that vehicle (in memory and in
the store), touches no money row and no key list, and merely returns the
computed cost, floor of 2.5 per liter, to the caller. -/
theorem refuel_frame (s : VState) (vehicleId : Nat) (amount : ℚ) (v : Vehicle)
    (hv : s.vehicles vehicleId = some v)
    (hamt : 0 < amount) (hroom : v.fuel < 100) :
    (refuelVehicle s vehicleId amount).2.1.success = true
    ∧ (refuelVehicle s vehicleId amount).1.vehicles vehicleId
        = some { v with fuel := v.fuel + min amount (100 - v.fuel) }
    ∧ v.fuel + min amount (100 - v.fuel) ≤ 100
    ∧ (∀ k, k ≠ vehicleId → (refuelVehicle s vehicleId amount).1.vehicles k = s.vehicles k)
    ∧ (refuelVehicle s vehicleId amount).1.dbVehicles vehicleId
        = (s.dbVehicles vehicleId).map (fun w => { w with fuel := v.fuel + min amount (100 - v.fuel) })
    ∧ (∀ k, k ≠ vehicleId → (refuelVehicle s vehicleId amount).1.dbVehicles k = s.dbVehicles k)
    ∧ (refuelVehicle s vehicleId amount).1.dbMoney = s.dbMoney
    ∧ (refuelVehicle s vehicleId amount).1.vehicleKeys = s.vehicleKeys
    ∧ (refuelVehicle s vehicleId amount).1.dbVehicleKeys = s.dbVehicleKeys
    ∧ (refuelVehicle s vehicleId amount).2.2
        = some ⌊(min amount (100 - v.fuel)) * (5 / 2 : ℚ)⌋ := by
  have hpos : 0 < min amount (100 - v.fuel) := lt_min hamt (by linarith)
  have hne : ¬ min amount (100 - v.fuel) ≤ 0 := not_le.mpr hpos
  have heq : refuelVehicle s vehicleId amount
      = ({ s with
            vehicles := modifyMap s.vehicles vehicleId
              (fun w => { w with fuel := v.fuel + min amount (100 - v.fuel) }),
            dbVehicles := modifyMap s.dbVehicles vehicleId
              (fun w => { w with fuel := v.fuel + min amount (100 - v.fuel) }) },
         ⟨true, "refueled"⟩, some ⌊(min amount (100 - v.fuel)) * (5 / 2 : ℚ)⌋) := by
    simp [refuelVehicle, hv, hne]
  rw [heq]
  refine ⟨rfl, ?_, ?_, ?_, ?_, ?_, rfl, rfl, rfl, rfl⟩
  · show modifyMap s.vehicles vehicleId _ vehicleId = _
    rw [modifyMap_self, hv]
    rfl
  · have := min_le_right amount (100 - v.fuel)
    linarith
  · intro k hk
    exact modifyMap_ne _ _ _ _ hk
  · show modifyMap s.dbVehicles vehicleId _ vehicleId = _
    rw [modifyMap_self]
  · intro k hk
    exact modifyMap_ne _ _ _ _ hk

/-- Witness for C10: refuel the half-full vehicle 1 of vstate0 with 30
liters. -/
theorem refuel_frame_witness :
    (refuelVehicle vstate0 1 30).2.1.success = true
    ∧ (refuelVehicle vstate0 1 30).1.vehicles 1
        = some { veh0 with fuel := veh0.fuel + min 30 (100 - veh0.fuel) }
    ∧ veh0.fuel + min 30 (100 - veh0.fuel) ≤ 100
    ∧ (∀ k, k ≠ 1 → (refuelVehicle vstate0 1 30).1.vehicles k = vstate0.vehicles k)
    ∧ (refuelVehicle vstate0 1 30).1.dbVehicles 1
        = (vstate0.dbVehicles 1).map (fun w => { w with fuel := veh0.fuel + min 30 (100 - veh0.fuel) })
    ∧ (∀ k, k ≠ 1 → (refuelVehicle vstate0 1 30).1.dbVehicles k = vstate0.dbVehicles k)
    ∧ (refuelVehicle vstate0 1 30).1.dbMoney = vstate0.dbMoney
    ∧ (refuelVehicle vstate0 1 30).1.vehicleKeys = vstate0.vehicleKeys
    ∧ (refuelVehicle vstate0 1 30).1.dbVehicleKeys = vstate0.dbVehicleKeys
    ∧ (refuelVehicle vstate0 1 30).2.2 = some ⌊(min 30 (100 - veh0.fuel)) * (5 / 2 : ℚ)⌋ :=
  refuel_frame vstate0 1 30 veh0 rfl (by norm_num) (by norm_num [veh0])

/-- purchaseVehicle immediately followed by sellVehicle of the purchased
vehicle by the same actor; when the purchase fails no sell is attempted. -/
def vehicleRoundTrip (s : VState) (actorId : Nat) (dealership model plate : String) :
    VState × Result × Option Result :=
  let a := purchaseVehicle s actorId dealership model plate
  match a.2.2 with
  | none => (a.1, a.2.1, none)
  | some vehicleId =>
      let b := sellVehicle a.1 vehicleId actorId
      (b.1, a.2.1, some b.2)

theorem purchaseVehicle_success (s : VState) (actorId : Nat)
    (dealership model plate : String) (dv : List CatalogEntry) (info : CatalogEntry) (m : Int)
    (hd : dealerships dealership = some dv)
    (hfind : dv.find? (fun v => v.model == model) = some info)
    (hm : s.dbMoney actorId = some m) (hf : ¬ m < (info.price : Int))
    (hfresh : s.vehicles s.nextVehicleId = none) :
    purchaseVehicle s actorId dealership model plate =
      ({ s with
          vehicles := setMap s.vehicles s.nextVehicleId
            ⟨actorId, model, plate, 100, 1000, 1000, true, false⟩,
          dbVehicles := setMap s.dbVehicles s.nextVehicleId
            ⟨actorId, model, plate, 100, 1000, 1000, true, false, false⟩,
          dbMoney := modifyMap s.dbMoney actorId (fun mm => mm - (info.price : Int)),
          nextVehicleId := s.nextVehicleId + 1 },
       ⟨true, "vehicle-purchased"⟩, some s.nextVehicleId) := by
  simp [purchaseVehicle, giveKey, hd, hfind, hm, hf, hfresh]

theorem sellVehicle_success (s : VState) (vehicleId sellerId : Nat) (v : Vehicle)
    (info : CatalogEntry)
    (hv : s.vehicles vehicleId = some v) (hown : v.owner_id = sellerId)
    (himp : v.impounded = false)
    (hall : allDealershipVehicles.find? (fun c => c.model == v.model) = some info) :
    sellVehicle s vehicleId sellerId =
      ({ vehicles := eraseMap s.vehicles vehicleId,
         vehicleKeys := fun x => if x = vehicleId then [] else s.vehicleKeys x,
         dbVehicles := modifyMap s.dbVehicles vehicleId (fun w => { w with deleted := true }),
         dbVehicleKeys := s.dbVehicleKeys.filter
           (fun k => (k.vehicle_id == vehicleId) = false),
         dbMoney := modifyMap s.dbMoney sellerId (fun mm => mm + Int.ofNat (info.price / 2)),
         nextVehicleId := s.nextVehicleId },
       ⟨true, "vehicle-sold"⟩) := by
  simp [sellVehicle, hv, hown, himp, hall]

theorem filter_own_vkeys_nil (l : List VehicleKey) (vehicleId : Nat) :
    (l.filter (fun k => (k.vehicle_id == vehicleId) = false)).filter
      (fun k => k.vehicle_id == vehicleId) = [] := by
  rw [List.filter_filter]
  rw [List.filter_eq_nil_iff]
  intro a _
  cases h : (a.vehicle_id == vehicleId) <;> simp [h]

/-- Helper for C5, vehicle half: a funded catalog purchase followed at once
by a sell of the new vehicle by the same actor succeeds twice and returns
the actor money to initial - price + price/2; but the vehicle is NOT left
unowned and re-listed: the row is soft-deleted with its owner still set,
the vehicle disappears from the in-memory registry, and no key survives
(none was ever created: giveKey ran before the cache insert and failed). -/
theorem vehicleRoundTrip_spec (s : VState) (actorId : Nat)
    (dealership model plate : String) (dv : List CatalogEntry) (info : CatalogEntry) (m : Int)
    (hd : dealerships dealership = some dv)
    (hfind : dv.find? (fun v => v.model == model) = some info)
    (hall : allDealershipVehicles.find? (fun c => c.model == model) = some info)
    (hm : s.dbMoney actorId = some m) (hf : ¬ m < (info.price : Int))
    (hfresh : s.vehicles s.nextVehicleId = none) :
    (vehicleRoundTrip s actorId dealership model plate).2.1.success = true
    ∧ (vehicleRoundTrip s actorId dealership model plate).2.2 = some ⟨true, "vehicle-sold"⟩
    ∧ (vehicleRoundTrip s actorId dealership model plate).1.dbMoney actorId
        = some (m - (info.price : Int) + ((info.price / 2 : Nat) : Int))
    ∧ (vehicleRoundTrip s actorId dealership model plate).1.vehicles s.nextVehicleId = none
    ∧ (vehicleRoundTrip s actorId dealership model plate).1.vehicleKeys s.nextVehicleId = []
    ∧ (vehicleRoundTrip s actorId dealership model plate).1.dbVehicleKeys.filter
        (fun k => k.vehicle_id == s.nextVehicleId) = []
    ∧ (vehicleRoundTrip s actorId dealership model plate).1.dbVehicles s.nextVehicleId
        = some ⟨actorId, model, plate, 100, 1000, 1000, true, false, true⟩ := by
  have hpur := purchaseVehicle_success s actorId dealership model plate dv info m
    hd hfind hm hf hfresh
  have hsell := sellVehicle_success
    { s with
      vehicles := setMap s.vehicles s.nextVehicleId
        ⟨actorId, model, plate, 100, 1000, 1000, true, false⟩,
      dbVehicles := setMap s.dbVehicles s.nextVehicleId
        ⟨actorId, model, plate, 100, 1000, 1000, true, false, false⟩,
      dbMoney := modifyMap s.dbMoney actorId (fun mm => mm - (info.price : Int)),
      nextVehicleId := s.nextVehicleId + 1 }
    s.nextVehicleId actorId ⟨actorId, model, plate, 100, 1000, 1000, true, false⟩ info
    (setMap_self _ _ _) rfl rfl hall
  have hrt : vehicleRoundTrip s actorId dealership model plate
      = ((sellVehicle
            { s with
              vehicles := setMap s.vehicles s.nextVehicleId
                ⟨actorId, model, plate, 100, 1000, 1000, true, false⟩,
              dbVehicles := setMap s.dbVehicles s.nextVehicleId
                ⟨actorId, model, plate, 100, 1000, 1000, true, false, false⟩,
              dbMoney := modifyMap s.dbMoney actorId (fun mm => mm - (info.price : Int)),
              nextVehicleId := s.nextVehicleId + 1 }
            s.nextVehicleId actorId).1,
         ⟨true, "vehicle-purchased"⟩,
         some (sellVehicle
            { s with
              vehicles := setMap s.vehicles s.nextVehicleId
                ⟨actorId, model, plate, 100, 1000, 1000, true, false⟩,
              dbVehicles := setMap s.dbVehicles s.nextVehicleId
                ⟨actorId, model, plate, 100, 1000, 1000, true, false, false⟩,
              dbMoney := modifyMap s.dbMoney actorId (fun mm => mm - (info.price : Int)),
              nextVehicleId := s.nextVehicleId + 1 }
            s.nextVehicleId actorId).2) := by
    unfold vehicleRoundTrip
    rw [hpur]
  rw [hrt, hsell]
  refine ⟨rfl, rfl, ?_, ?_, ?_, ?_, ?_⟩
  · show modifyMap (modifyMap s.dbMoney actorId _) actorId _ actorId = _
    rw [modifyMap_self, modifyMap_self, hm]
    rfl
  · exact eraseMap_self _ _
  · simp
  · exact filter_own_vkeys_nil _ _
  · show modifyMap (setMap s.dbVehicles s.nextVehicleId _) s.nextVehicleId _ s.nextVehicleId = _
    rw [modifyMap_self, setMap_self]
    rfl

/-- The empty vehicle state where player 7 holds 10000 and the next vehicle
row id is 1. -/
def vstate1 : VState :=
  ⟨fun _ => none, fun _ => [], fun _ => none, [],
   fun k => if k = 7 then some 10000 else none, 1⟩

/-- C5 counterexample: player 7 buys a blista (8000) and sells it at once.
Both calls succeed and the money comes back to 10000 - 8000 + 4000, but the
asset is NOT left with a null owner and a set for-sale flag: the vehicle
row is soft-deleted with owner_id still 7 (vehicles have no for_sale field
at all) and the vehicle is gone from the in-memory registry. -/
theorem vehicle_round_trip_counterexample :
    (vehicleRoundTrip vstate1 7 "simeon" "blista" "BBBB2222").2.1.success = true
    ∧ (vehicleRoundTrip vstate1 7 "simeon" "blista" "BBBB2222").2.2
        = some ⟨true, "vehicle-sold"⟩
    ∧ (vehicleRoundTrip vstate1 7 "simeon" "blista" "BBBB2222").1.dbMoney 7 = some 6000
    ∧ (vehicleRoundTrip vstate1 7 "simeon" "blista" "BBBB2222").1.dbVehicles 1
        = some ⟨7, "blista", "BBBB2222", 100, 1000, 1000, true, false, true⟩
    ∧ (vehicleRoundTrip vstate1 7 "simeon" "blista" "BBBB2222").1.vehicles 1 = none := by
  refine ⟨rfl, rfl, rfl, by decide, rfl⟩

end VehicleM

/-! ## FactionManager (src/server/systems/factions/FactionManager.ts) -/

namespace FactionM

/-- A factions row (the fields the war/kick paths touch). -/
structure Faction where
  id : Nat
  name : String
  leader_id : Nat
deriving DecidableEq, Repr

/-- A faction_ranks row: per-faction rank with its own permission set. -/
structure FactionRank where
  faction_id : Nat
  name : String
  level : Nat
  permissions : List String
deriving DecidableEq, Repr

/-- A faction_wars row / in-memory activeWars entry. -/
structure FactionWar where
  id : Nat
  faction1_id : Nat
  faction2_id : Nat
  started_by : Nat
  status : String
  reason : String
deriving DecidableEq, Repr

/-- The characterData fields the faction paths read and write. -/
structure CharacterData where
  id : Nat
  faction_id : Option Nat
  faction_rank : Nat
deriving DecidableEq, Repr

/-- A connected player object: RageMP name, loaded character (absent when
not logged into a character) and the cached factionData reference. -/
structure Player where
  name : String
  characterData : Option CharacterData
  factionData : Option Faction
deriving DecidableEq, Repr

/-- FactionManager state: the in-memory factions map (iterated by the war
path, held as a list), per-faction rank lists, the activeWars map (held as
a list of active rows), the connected players, the characters table rows
the kick path updates, the durable faction_wars rows, and the
auto-increment counter yielding insertId for war rows. -/
structure FState where
  factions : List Faction
  factionRanks : Nat → Option (List FactionRank)
  activeWars : List FactionWar
  players : List Player
  dbCharacters : Nat → Option CharacterData
  dbFactionWars : List FactionWar
  nextWarId : Nat

/-- Faction-scoped hasPermission, de-nulled: the source reads
player.factionData and player.characterData.faction_rank (a falsy rank 0
fails closed), looks the faction rank list up and matches the rank level,
then tests exact containment.  Callers pass the faction id and rank of the
already-null-checked player. -/
def hasPermission (s : FState) (factionId factionRank : Nat) (permission : String) : Bool :=
  if factionRank = 0 then false
  else
    match s.factionRanks factionId with
    | none => false
    | some ranks =>
      match ranks.find? (fun r => r.level == factionRank) with
      | none => false
      | some playerRank => playerRank.permissions.contains permission

/-- ASCII lowercasing by mapping Char.toLower over the character list; the
same function as String.toLower (which recurses on byte positions and does
not reduce inside the kernel), modelling the JS toLowerCase call of the
war path on the ASCII faction names. -/
def strToLower (s : String) : String :=
  ⟨s.data.map Char.toLower⟩

/-- PlayerManager.getPlayerByName: first connected player with that name. -/
def getPlayerByName (s : FState) (playerName : String) : Option Player :=
  s.players.find? (fun p => p.name == playerName)

/-- handleFactionWar: permission gate, target faction lookup by
case-insensitive name, self-war rejection, then the existing-war scan over
activeWars in both orientations; only when none is found are the
faction_wars row inserted and the activeWars map extended.  Returns the
error message sent to the declarer, none on success.  A player with
factionData but no characterData would make the source throw inside
hasPermission; the catch sends the generic error, modelled by the
dedicated branch. -/
def handleFactionWar (s : FState) (player : Player) (targetFactionName reason : String) :
    FState × Option String :=
  match player.factionData with
  | none => (s, some "no-permission-war")
  | some factionData =>
    match player.characterData with
    | none => (s, some "error-declaring-war")
    | some cd =>
      if hasPermission s factionData.id cd.faction_rank "war" = false then
        (s, some "no-permission-war")
      else
        match s.factions.find?
            (fun f => strToLower f.name == strToLower targetFactionName) with
        | none => (s, some "faction-not-found")
        | some targetFaction =>
          if targetFaction.id == factionData.id then
            (s, some "cannot-war-own-faction")
          else
            match s.activeWars.find? (fun war =>
                (war.faction1_id == factionData.id && war.faction2_id == targetFaction.id)
                || (war.faction1_id == targetFaction.id
                    && war.faction2_id == factionData.id)) with
            | some _ => (s, some "war-already-exists")
            | none =>
              let war : FactionWar :=
                ⟨s.nextWarId, factionData.id, targetFaction.id, cd.id, "active", reason⟩
              ({ s with
                  dbFactionWars := s.dbFactionWars ++ [war],
                  activeWars := s.activeWars ++ [war],
                  nextWarId := s.nextWarId + 1 },
               none)

/-- handleFactionKick: permission gate, target lookup by name, same-faction
check, then the equal-or-higher-rank rejection; only a strictly lower
ranked same-faction target is removed (characters row nulled, the target
player object cleared).  Returns the error message sent to the kicker,
none on success. -/
def handleFactionKick (s : FState) (player : Player) (targetName : String) :
    FState × Option String :=
  match player.factionData with
  | none => (s, some "no-permission-kick")
  | some factionData =>
    match player.characterData with
    | none => (s, some "error-kicking-member")
    | some cd =>
      if hasPermission s factionData.id cd.faction_rank "kick" = false then
        (s, some "no-permission-kick")
      else
        match getPlayerByName s targetName with
        | none => (s, some "player-not-found")
        | some targetPlayer =>
          match targetPlayer.characterData with
          | none => (s, some "player-not-found")
          | some tcd =>
            if (tcd.faction_id == some factionData.id) = false then
              (s, some "player-not-in-your-faction")
            else if cd.faction_rank ≤ tcd.faction_rank then
              (s, some "cannot-kick-equal-or-higher-rank")
            else
              ({ s with
                  dbCharacters := modifyMap s.dbCharacters tcd.id
                    (fun c => { c with faction_id := none, faction_rank := 0 }),
                  players := s.players.map (fun q =>
                    if q == targetPlayer then
                      { q with
                        characterData := some { tcd with faction_id := none, faction_rank := 0 },
                        factionData := none }
                    else q) },
               none)

/-- Two active wars cover the same unordered faction pair when their
endpoint sets agree in either orientation. -/
def samePair (w1 w2 : FactionWar) : Prop :=
  (w1.faction1_id = w2.faction1_id ∧ w1.faction2_id = w2.faction2_id)
  ∨ (w1.faction1_id = w2.faction2_id ∧ w1.faction2_id = w2.faction1_id)

/-- The C8 invariant: no two distinct entries of the activeWars map cover
the same unordered pair. -/
def AtMostOneWarPerPair (wars : List FactionWar) : Prop :=
  wars.Pairwise (fun w1 w2 => ¬ samePair w1 w2)

theorem handleFactionWar_preserves (s : FState) (player : Player)
    (targetFactionName reason : String)
    (hinv : AtMostOneWarPerPair s.activeWars) :
    AtMostOneWarPerPair (handleFactionWar s player targetFactionName reason).1.activeWars := by
  unfold handleFactionWar
  split
  · exact hinv
  · split
    · exact hinv
    · split
      · exact hinv
      · split
        · exact hinv
        · split
          · exact hinv
          · split
            · exact hinv
            · rename_i factionData cd hperm targetFaction htf hneq hnone
              have hall := List.find?_eq_none.mp hnone
              refine List.pairwise_append.mpr ⟨hinv, List.pairwise_singleton _ _, ?_⟩
              intro a ha b hb
              rw [List.mem_singleton] at hb
              subst hb
              intro hsp
              have hfa := hall a ha
              simp only [Bool.or_eq_true, Bool.and_eq_true, beq_iff_eq, not_or, not_and] at hfa
              simp only [samePair] at hsp
              rcases hsp with ⟨h1, h2⟩ | ⟨h1, h2⟩
              · exact absurd h2 (hfa.1 h1)
              · exact absurd h2 (hfa.2 h1)

/-- Concrete faction scenario: factions Ballas (1) and Grove (2) with an
active war between them, rank 10 holding war and kick, rank 3 holding kick,
and three connected faction members Pat (rank 10), Bob and Cal (rank 3). -/
def fstate0 : FState :=
  ⟨[⟨1, "Ballas", 99⟩, ⟨2, "Grove", 98⟩],
   fun _ => some [⟨1, "Leader", 10, ["war", "kick"]⟩, ⟨1, "Member", 3, ["kick"]⟩],
   [⟨1, 1, 2, 99, "active", "beef"⟩],
   [⟨"Pat", some ⟨99, some 1, 10⟩, some ⟨1, "Ballas", 99⟩⟩,
    ⟨"Bob", some ⟨101, some 1, 3⟩, some ⟨1, "Ballas", 99⟩⟩,
    ⟨"Cal", some ⟨102, some 1, 3⟩, some ⟨1, "Ballas", 99⟩⟩],
   fun _ => none,
   [⟨1, 1, 2, 99, "active", "beef"⟩],
   2⟩

/-- Pat, rank 10 in Ballas. -/
def patPlayer : Player :=
  ⟨"Pat", some ⟨99, some 1, 10⟩, some ⟨1, "Ballas", 99⟩⟩

/-- Bob, rank 3 in Ballas. -/
def bobPlayer : Player :=
  ⟨"Bob", some ⟨101, some 1, 3⟩, some ⟨1, "Ballas", 99⟩⟩

/-- C8: while an active war between two factions exists, a second war
declaration between the same two factions — in either orientation, since
the scan matches both — fails with the conflict message and changes
nothing; and the war handler preserves the invariant that at most one
active war exists per unordered faction pair. -/
theorem faction_war_unique (s : FState) (player : Player) (targetFactionName reason : String)
    (factionData : Faction) (cd : CharacterData) (targetFaction : Faction) (w : FactionWar)
    (hfd : player.factionData = some factionData)
    (hcd : player.characterData = some cd)
    (hperm : hasPermission s factionData.id cd.faction_rank "war" = true)
    (htarget : s.factions.find? (fun f => strToLower f.name == strToLower targetFactionName)
        = some targetFaction)
    (hne : (targetFaction.id == factionData.id) = false)
    (hexist : s.activeWars.find? (fun war =>
        (war.faction1_id == factionData.id && war.faction2_id == targetFaction.id)
        || (war.faction1_id == targetFaction.id && war.faction2_id == factionData.id))
        = some w) :
    handleFactionWar s player targetFactionName reason = (s, some "war-already-exists")
    ∧ (∀ s2 (player2 : Player) (t2 r2 : String), AtMostOneWarPerPair s2.activeWars →
        AtMostOneWarPerPair (handleFactionWar s2 player2 t2 r2).1.activeWars) := by
  constructor
  · simp [handleFactionWar, hfd, hcd, hperm, htarget, hne, hexist]
  · intro s2 player2 t2 r2 hinv
    exact handleFactionWar_preserves s2 player2 t2 r2 hinv

/-- Witness for C8: a reversed-orientation redeclaration of the active
Ballas/Grove war is rejected, and the invariant is preserved from the
concrete one-war state. -/
theorem faction_war_unique_witness :
    handleFactionWar fstate0 patPlayer "grove" "again" = (fstate0, some "war-already-exists")
    ∧ AtMostOneWarPerPair (handleFactionWar fstate0 patPlayer "grove" "again").1.activeWars :=
  let t := faction_war_unique fstate0 patPlayer "grove" "again"
    ⟨1, "Ballas", 99⟩ ⟨99, some 1, 10⟩ ⟨2, "Grove", 98⟩ ⟨1, 1, 2, 99, "active", "beef"⟩
    rfl rfl (by decide) (by decide) (by decide) (by decide)
  ⟨t.1, t.2 fstate0 patPlayer "grove" "again"
    (by simp [AtMostOneWarPerPair, fstate0])⟩

/-- C9: under the resolved caller and target, a faction kick succeeds only
if the caller holds the kick capability in the faction rank table AND the
target rank is strictly lower than the caller rank; and whenever the target
rank is equal or higher (self included), the kick fails with some error
message and the state — in particular the target membership — is unchanged,
regardless of the capability set. -/
theorem faction_kick_rank_gate (s : FState) (player : Player) (targetName : String)
    (factionData : Faction) (cd : CharacterData) (tp : Player) (tcd : CharacterData)
    (hfd : player.factionData = some factionData)
    (hcd : player.characterData = some cd)
    (htp : getPlayerByName s targetName = some tp)
    (htcd : tp.characterData = some tcd) :
    ((handleFactionKick s player targetName).2 = none →
        hasPermission s factionData.id cd.faction_rank "kick" = true
        ∧ tcd.faction_rank < cd.faction_rank)
    ∧ (cd.faction_rank ≤ tcd.faction_rank →
        (handleFactionKick s player targetName).1 = s
        ∧ (handleFactionKick s player targetName).2 ≠ none) := by
  have hred : handleFactionKick s player targetName =
      (if hasPermission s factionData.id cd.faction_rank "kick" = false then
        (s, some "no-permission-kick")
      else if (tcd.faction_id == some factionData.id) = false then
        (s, some "player-not-in-your-faction")
      else if cd.faction_rank ≤ tcd.faction_rank then
        (s, some "cannot-kick-equal-or-higher-rank")
      else
        ({ s with
            dbCharacters := modifyMap s.dbCharacters tcd.id
              (fun c => { c with faction_id := none, faction_rank := 0 }),
            players := s.players.map (fun q =>
              if q == tp then
                { q with
                  characterData := some { tcd with faction_id := none, faction_rank := 0 },
                  factionData := none }
              else q) },
         none)) := by
    simp [handleFactionKick, hfd, hcd, htp, htcd]
  rw [hred]
  by_cases h1 : hasPermission s factionData.id cd.faction_rank "kick" = false
  · rw [if_pos h1]
    constructor
    · intro hsucc
      cases hsucc
    · intro _
      exact ⟨rfl, by simp⟩
  · rw [if_neg h1]
    by_cases h2 : (tcd.faction_id == some factionData.id) = false
    · rw [if_pos h2]
      constructor
      · intro hsucc
        cases hsucc
      · intro _
        exact ⟨rfl, by simp⟩
    · rw [if_neg h2]
      by_cases h3 : cd.faction_rank ≤ tcd.faction_rank
      · rw [if_pos h3]
        constructor
        · intro hsucc
          cases hsucc
        · intro _
          exact ⟨rfl, by simp⟩
      · rw [if_neg h3]
        constructor
        · intro _
          refine ⟨?_, ?_⟩
          · cases hb : hasPermission s factionData.id cd.faction_rank "kick" with
            | false => exact absurd hb h1
            | true => rfl
          · omega
        · intro hle
          exact absurd hle h3

/-- Witness for C9: Pat (rank 10, kick capability) successfully kicks Bob
(rank 3), and Bob — whose rank 3 nominally includes the kick capability —
cannot kick Cal of equal rank 3: the call fails and changes nothing. -/
theorem faction_kick_rank_gate_witness :
    (hasPermission fstate0 1 10 "kick" = true ∧ 3 < 10)
    ∧ ((handleFactionKick fstate0 bobPlayer "Cal").1 = fstate0
        ∧ (handleFactionKick fstate0 bobPlayer "Cal").2 ≠ none) :=
  let tPat := faction_kick_rank_gate fstate0 patPlayer "Bob"
    ⟨1, "Ballas", 99⟩ ⟨99, some 1, 10⟩ bobPlayer ⟨101, some 1, 3⟩
    rfl rfl (by decide) rfl
  let tBob := faction_kick_rank_gate fstate0 bobPlayer "Cal"
    ⟨1, "Ballas", 99⟩ ⟨101, some 1, 3⟩ ⟨"Cal", some ⟨102, some 1, 3⟩, some ⟨1, "Ballas", 99⟩⟩
    ⟨102, some 1, 3⟩ rfl rfl (by decide) rfl
  ⟨tPat.1 (by decide), tBob.2 (by decide)⟩

end FactionM

/-! ## C5: purchase-then-sell round trip across both asset classes -/

/-- C5 amended: a funded purchase immediately followed by a sell of the
same asset by the same actor succeeds twice and restores the actor cash to
initial - price + sellFraction*price (floor of 80% of list price for
property, floor of 50% of catalog value for vehicle).  A property is then
left with owner null, for_sale set, rental cleared and zero keys, exactly
as claimed; a vehicle however is NOT re-listed: its row is soft-deleted
with the owner still recorded (vehicles have no for_sale field), it
disappears from the in-memory registry, and no key survives. -/
theorem purchase_sell_round_trip
    (s : PropertyM.PState) (propertyId actorId : Nat) (p dp : PropertyM.Property) (m : Int)
    (sv : VehicleM.VState) (vactorId : Nat) (dealership model plate : String)
    (dv : List VehicleM.CatalogEntry) (info : VehicleM.CatalogEntry) (mv : Int)
    (hp : s.properties propertyId = some p)
    (hsale : p.for_sale = true) (hown : p.owner_id = none)
    (hm : s.dbMoney actorId = some m) (hf : ¬ m < (p.price : Int))
    (hk : s.dbPropertyKeys.filter
        (fun k => k.property_id == propertyId && k.player_id == actorId) = [])
    (hdp : s.dbProperties propertyId = some dp)
    (hd : VehicleM.dealerships dealership = some dv)
    (hfind : dv.find? (fun v => v.model == model) = some info)
    (hall : VehicleM.allDealershipVehicles.find? (fun c => c.model == model) = some info)
    (hmv : sv.dbMoney vactorId = some mv) (hfv : ¬ mv < (info.price : Int))
    (hfresh : sv.vehicles sv.nextVehicleId = none) :
    ((PropertyM.propertyRoundTrip s propertyId actorId).2.1.success = true
     ∧ (PropertyM.propertyRoundTrip s propertyId actorId).2.2.success = true
     ∧ (PropertyM.propertyRoundTrip s propertyId actorId).1.dbMoney actorId
         = some (m - (p.price : Int) + ((4 * p.price / 5 : Nat) : Int))
     ∧ (PropertyM.propertyRoundTrip s propertyId actorId).1.properties propertyId
         = some (PropertyM.clearSale p)
     ∧ (PropertyM.propertyRoundTrip s propertyId actorId).1.dbProperties propertyId
         = some (PropertyM.clearSale dp)
     ∧ (PropertyM.propertyRoundTrip s propertyId actorId).1.propertyKeys propertyId = []
     ∧ (PropertyM.propertyRoundTrip s propertyId actorId).1.dbPropertyKeys.filter
         (fun k => k.property_id == propertyId) = [])
    ∧ ((VehicleM.vehicleRoundTrip sv vactorId dealership model plate).2.1.success = true
     ∧ (VehicleM.vehicleRoundTrip sv vactorId dealership model plate).2.2
         = some ⟨true, "vehicle-sold"⟩
     ∧ (VehicleM.vehicleRoundTrip sv vactorId dealership model plate).1.dbMoney vactorId
         = some (mv - (info.price : Int) + ((info.price / 2 : Nat) : Int))
     ∧ (VehicleM.vehicleRoundTrip sv vactorId dealership model plate).1.vehicles
         sv.nextVehicleId = none
     ∧ (VehicleM.vehicleRoundTrip sv vactorId dealership model plate).1.vehicleKeys
         sv.nextVehicleId = []
     ∧ (VehicleM.vehicleRoundTrip sv vactorId dealership model plate).1.dbVehicleKeys.filter
         (fun k => k.vehicle_id == sv.nextVehicleId) = []
     ∧ (VehicleM.vehicleRoundTrip sv vactorId dealership model plate).1.dbVehicles
         sv.nextVehicleId
         = some ⟨vactorId, model, plate, 100, 1000, 1000, true, false, true⟩) :=
  ⟨PropertyM.propertyRoundTrip_spec s propertyId actorId p dp m hp hsale hown hm hf hk hdp,
   VehicleM.vehicleRoundTrip_spec sv vactorId dealership model plate dv info mv
     hd hfind hall hmv hfv hfresh⟩

/-- Witness for C5 amended: property 42 of pstate0 bought and sold by
actor 1, and a blista bought and sold by actor 7 from vstate1. -/
theorem purchase_sell_round_trip_witness :
    ((PropertyM.propertyRoundTrip PropertyM.pstate0 42 1).2.1.success = true
     ∧ (PropertyM.propertyRoundTrip PropertyM.pstate0 42 1).2.2.success = true
     ∧ (PropertyM.propertyRoundTrip PropertyM.pstate0 42 1).1.dbMoney 1
         = some (5000 - (PropertyM.prop0.price : Int)
             + ((4 * PropertyM.prop0.price / 5 : Nat) : Int))
     ∧ (PropertyM.propertyRoundTrip PropertyM.pstate0 42 1).1.properties 42
         = some (PropertyM.clearSale PropertyM.prop0)
     ∧ (PropertyM.propertyRoundTrip PropertyM.pstate0 42 1).1.dbProperties 42
         = some (PropertyM.clearSale PropertyM.prop0)
     ∧ (PropertyM.propertyRoundTrip PropertyM.pstate0 42 1).1.propertyKeys 42 = []
     ∧ (PropertyM.propertyRoundTrip PropertyM.pstate0 42 1).1.dbPropertyKeys.filter
         (fun k => k.property_id == 42) = [])
    ∧ ((VehicleM.vehicleRoundTrip VehicleM.vstate1 7 "simeon" "blista" "BBBB2222").2.1.success
         = true
     ∧ (VehicleM.vehicleRoundTrip VehicleM.vstate1 7 "simeon" "blista" "BBBB2222").2.2
         = some ⟨true, "vehicle-sold"⟩
     ∧ (VehicleM.vehicleRoundTrip VehicleM.vstate1 7 "simeon" "blista" "BBBB2222").1.dbMoney 7
         = some (10000 - (8000 : Int) + ((8000 / 2 : Nat) : Int))
     ∧ (VehicleM.vehicleRoundTrip VehicleM.vstate1 7 "simeon" "blista"
         "BBBB2222").1.vehicles VehicleM.vstate1.nextVehicleId = none
     ∧ (VehicleM.vehicleRoundTrip VehicleM.vstate1 7 "simeon" "blista"
         "BBBB2222").1.vehicleKeys VehicleM.vstate1.nextVehicleId = []
     ∧ (VehicleM.vehicleRoundTrip VehicleM.vstate1 7 "simeon" "blista"
         "BBBB2222").1.dbVehicleKeys.filter
         (fun k => k.vehicle_id == VehicleM.vstate1.nextVehicleId) = []
     ∧ (VehicleM.vehicleRoundTrip VehicleM.vstate1 7 "simeon" "blista"
         "BBBB2222").1.dbVehicles VehicleM.vstate1.nextVehicleId
         = some ⟨7, "blista", "BBBB2222", 100, 1000, 1000, true, false, true⟩) :=
  purchase_sell_round_trip PropertyM.pstate0 42 1 PropertyM.prop0 PropertyM.prop0 5000
    VehicleM.vstate1 7 "simeon" "blista" "BBBB2222" VehicleM.simeon
    ⟨"blista", "Dinka Blista", 8000⟩ 10000
    rfl rfl rfl rfl (by decide) rfl rfl rfl (by decide) (by decide) rfl (by decide) rfl

end GTA
